import Mathlib

/-
  Verification of the real-time presence-and-room relay in
  backend/app/main.py (Socket.IO event handlers).

  The embedding models Python values with their truthiness, event payloads
  as string-keyed dictionaries, the relay state (the `online_users` dict and
  the Transport Layer's rooms), and each Socket.IO handler as a function
  from state, session id, and payload to an outcome: the new state, the list
  of broadcasts emitted, and whether an uncaught exception escaped the
  handler.  Handlers are parametrized by an oracle `b : Bool` telling
  whether the (single) `sio.emit` call in the handler succeeds; when it does
  not, the call raises, and the handler's `try/except` wrapper (present on
  the seven payload handlers, absent on `connect` and `disconnect`) decides
  whether the exception escapes.
-/

namespace Relay

/-- Model of a Python value as it occurs in event payloads: `None`, a
string, an integer, or a boolean. -/
inductive Value where
  | none
  | str (s : String)
  | int (n : Int)
  | bool (b : Bool)
  deriving DecidableEq, Repr

/-- Python truthiness: `None`, the empty string, `0`, and `False` are
falsy; everything else is truthy. -/
def Value.truthy : Value → Bool
  | Value.none => false
  | Value.str s => decide (s ≠ "")
  | Value.int n => decide (n ≠ 0)
  | Value.bool b => b

/-- A Python dictionary with string keys, as an association list. -/
abbrev Dict := List (String × Value)

/-- Look up a key in a dictionary: `d[k]` when present. -/
def dictGet : Dict → String → Option Value
  | [], _ => Option.none
  | (k', v) :: rest, k => if k' = k then some v else dictGet rest k

/-- Insert or overwrite the entry for a key: `d[k] = v`. -/
def dictSet : Dict → String → Value → Dict
  | [], k, v => [(k, v)]
  | (k', v') :: rest, k, v =>
      if k' = k then (k, v) :: rest else (k', v') :: dictSet rest k v

/-- Delete the entry for a key: `del d[k]`. -/
def dictDel : Dict → String → Dict
  | [], _ => []
  | (k', v) :: rest, k =>
      if k' = k then dictDel rest k else (k', v) :: dictDel rest k

/-- An event payload is a dictionary. -/
abbrev Payload := Dict

/-- Python `data.get(k)`: the stored value, or `None` when the key is
absent. -/
def Payload.get (d : Payload) (k : String) : Value :=
  match dictGet d k with
  | some v => v
  | Option.none => Value.none

/-- Python `data.get(k, dflt)`: the stored value when the key is present
(even if that value is `None`), the default otherwise. -/
def Payload.getD (d : Payload) (k : String) (dflt : Value) : Value :=
  match dictGet d k with
  | some v => v
  | Option.none => dflt

/-- The Transport Layer's room table: room name (a payload value used as
room id) to the list of member session ids. -/
abbrev Rooms := List (Value × List String)

/-- The sessions currently in a room (empty list for an unknown room). -/
def roomMembers : Rooms → Value → List String
  | [], _ => []
  | (r', ms) :: rest, r => if r' = r then ms else roomMembers rest r

/-- Model of `sio.enter_room(sid, r)`: add the session to the room,
creating the room if needed; idempotent for a session already present. -/
def enterRoom : Rooms → String → Value → Rooms
  | [], sid, r => [(r, [sid])]
  | (r', ms) :: rest, sid, r =>
      if r' = r then (r', if sid ∈ ms then ms else ms ++ [sid]) :: rest
      else (r', ms) :: enterRoom rest sid r

/-- Model of `sio.leave_room(sid, r)`: remove the session from the room. -/
def leaveRoom : Rooms → String → Value → Rooms
  | [], _, _ => []
  | (r', ms) :: rest, sid, r =>
      if r' = r then (r', ms.filter (fun m => decide (m ≠ sid))) :: leaveRoom rest sid r
      else (r', ms) :: leaveRoom rest sid r

/-- One outbound broadcast issued through `sio.emit`: event name, payload,
optional target room (`Option.none` means global), and optional excluded
session (`skip_sid`). -/
structure Emit where
  event : String
  payload : Payload
  room : Option Value
  skip : Option String
  deriving DecidableEq, Repr

/-- The relay's state: the module-level `online_users` dictionary mapping
session ids to user ids, plus the Transport Layer's room table. -/
structure RelayState where
  online_users : Dict
  rooms : Rooms
  deriving DecidableEq, Repr

/-- Outcome of running a handler: the state and emitted broadcasts on
normal return (`ok`), or the state and broadcasts accumulated up to an
exception that escapes the handler (`exc`). -/
inductive PyResult where
  | ok (st : RelayState) (emits : List Emit)
  | exc (st : RelayState) (emits : List Emit)
  deriving DecidableEq, Repr

/-- The state after the handler ran. -/
def PyResult.state : PyResult → RelayState
  | PyResult.ok st _ => st
  | PyResult.exc st _ => st

/-- The broadcasts the handler actually emitted. -/
def PyResult.emits : PyResult → List Emit
  | PyResult.ok _ es => es
  | PyResult.exc _ es => es

/-- Whether an exception escaped the handler. -/
def PyResult.raised : PyResult → Bool
  | PyResult.ok _ _ => false
  | PyResult.exc _ _ => true

/-- Model of an `await sio.emit(...)` call: when the oracle `b` is true the
broadcast is appended to the emits so far; otherwise the call raises at
that point and the broadcast is not delivered. -/
def sioEmit (b : Bool) (st : RelayState) (es : List Emit) (e : Emit) : PyResult :=
  if b then PyResult.ok st (es ++ [e]) else PyResult.exc st es

/-- Model of the `try: ... except Exception as e: print(...)` wrapper: an
exception escaping the body is caught, the handler returns normally, and
the side effects made before the exception persist. -/
def pyCatch : PyResult → PyResult
  | PyResult.ok st es => PyResult.ok st es
  | PyResult.exc st es => PyResult.ok st es

/-- The `connect` handler (no try/except in the source): emits
`connection_response` with status and sid to the connecting session's own
room. -/
def connect (b : Bool) (st : RelayState) (sid : String) : PyResult :=
  sioEmit b st []
    ⟨"connection_response",
      [("status", Value.str "connected"), ("sid", Value.str sid)],
      some (Value.str sid), Option.none⟩

/-- The `disconnect` handler (no try/except in the source): if the session
is in `online_users`, delete its entry and emit a global `user_offline`
carrying the prior user id; otherwise do nothing. -/
def disconnect (b : Bool) (st : RelayState) (sid : String) : PyResult :=
  match dictGet st.online_users sid with
  | some user_id =>
      sioEmit b (RelayState.mk (dictDel st.online_users sid) st.rooms) []
        ⟨"user_offline", [("user_id", user_id)], Option.none, Option.none⟩
  | Option.none => PyResult.ok st []

/-- Body of the `user_online` handler (inside its try block). -/
def user_online_body (b : Bool) (st : RelayState) (sid : String) (data : Payload) : PyResult :=
  let user_id := Payload.get data "user_id"
  if user_id.truthy = false then PyResult.ok st []
  else
    sioEmit b (RelayState.mk (dictSet st.online_users sid user_id) st.rooms) []
      ⟨"user_online", [("user_id", user_id)], Option.none, Option.none⟩

/-- The `user_online` handler: body wrapped in try/except. -/
def user_online (b : Bool) (st : RelayState) (sid : String) (data : Payload) : PyResult :=
  pyCatch (user_online_body b st sid data)

/-- Body of the `join_conversation` handler (inside its try block). -/
def join_conversation_body (b : Bool) (st : RelayState) (sid : String) (data : Payload) : PyResult :=
  let conversation_id := Payload.get data "conversation_id"
  let user_id := Payload.get data "user_id"
  if conversation_id.truthy = false ∨ user_id.truthy = false then PyResult.ok st []
  else
    sioEmit b (RelayState.mk st.online_users (enterRoom st.rooms sid conversation_id)) []
      ⟨"joined_conversation",
        [("conversation_id", conversation_id), ("user_id", user_id)],
        some conversation_id, Option.none⟩

/-- The `join_conversation` handler: body wrapped in try/except. -/
def join_conversation (b : Bool) (st : RelayState) (sid : String) (data : Payload) : PyResult :=
  pyCatch (join_conversation_body b st sid data)

/-- Body of the `leave_conversation` handler (inside its try block): only
`conversation_id` is required; the session leaves the room; nothing is
emitted. -/
def leave_conversation_body (b : Bool) (st : RelayState) (sid : String) (data : Payload) : PyResult :=
  let conversation_id := Payload.get data "conversation_id"
  if conversation_id.truthy = false then PyResult.ok st []
  else
    PyResult.ok (RelayState.mk st.online_users (leaveRoom st.rooms sid conversation_id)) []

/-- The `leave_conversation` handler: body wrapped in try/except. -/
def leave_conversation (b : Bool) (st : RelayState) (sid : String) (data : Payload) : PyResult :=
  pyCatch (leave_conversation_body b st sid data)

/-- Body of the `send_message` handler (inside its try block): re-emit the
inbound payload unmodified as `new_message` to the conversation's room,
with no excluded session. -/
def send_message_body (b : Bool) (st : RelayState) (sid : String) (data : Payload) : PyResult :=
  let conversation_id := Payload.get data "conversation_id"
  if conversation_id.truthy = false then PyResult.ok st []
  else
    sioEmit b st [] ⟨"new_message", data, some conversation_id, Option.none⟩

/-- The `send_message` handler: body wrapped in try/except. -/
def send_message (b : Bool) (st : RelayState) (sid : String) (data : Payload) : PyResult :=
  pyCatch (send_message_body b st sid data)

/-- Body of the `typing` handler (inside its try block): emit `user_typing`
to the conversation's room, skipping the sender; `is_typing` defaults to
`True` when the key is absent. -/
def typing_body (b : Bool) (st : RelayState) (sid : String) (data : Payload) : PyResult :=
  let conversation_id := Payload.get data "conversation_id"
  let user_id := Payload.get data "user_id"
  let is_typing := Payload.getD data "is_typing" (Value.bool true)
  if conversation_id.truthy = false ∨ user_id.truthy = false then PyResult.ok st []
  else
    sioEmit b st []
      ⟨"user_typing",
        [("conversation_id", conversation_id), ("user_id", user_id),
         ("is_typing", is_typing)],
        some conversation_id, some sid⟩

/-- The `typing` handler: body wrapped in try/except. -/
def typing (b : Bool) (st : RelayState) (sid : String) (data : Payload) : PyResult :=
  pyCatch (typing_body b st sid data)

/-- Body of the `message_read` handler (inside its try block): requires all
of conversation id, message id and user id truthy (`not all([...])`
returns), then emits `message_read` with message id and user id to the
conversation's room, with no excluded session. -/
def message_read_body (b : Bool) (st : RelayState) (sid : String) (data : Payload) : PyResult :=
  let conversation_id := Payload.get data "conversation_id"
  let message_id := Payload.get data "message_id"
  let user_id := Payload.get data "user_id"
  if conversation_id.truthy = false ∨ message_id.truthy = false ∨ user_id.truthy = false then
    PyResult.ok st []
  else
    sioEmit b st []
      ⟨"message_read",
        [("message_id", message_id), ("user_id", user_id)],
        some conversation_id, Option.none⟩

/-- The `message_read` handler: body wrapped in try/except. -/
def message_read (b : Bool) (st : RelayState) (sid : String) (data : Payload) : PyResult :=
  pyCatch (message_read_body b st sid data)

/-- Body of the `voice_call_request` handler (inside its try block): emits
`incoming_call` with conversation id and caller id to the conversation's
room, skipping the sender. -/
def voice_call_request_body (b : Bool) (st : RelayState) (sid : String) (data : Payload) : PyResult :=
  let conversation_id := Payload.get data "conversation_id"
  let caller_id := Payload.get data "caller_id"
  if conversation_id.truthy = false ∨ caller_id.truthy = false then PyResult.ok st []
  else
    sioEmit b st []
      ⟨"incoming_call",
        [("conversation_id", conversation_id), ("caller_id", caller_id)],
        some conversation_id, some sid⟩

/-- The `voice_call_request` handler: body wrapped in try/except. -/
def voice_call_request (b : Bool) (st : RelayState) (sid : String) (data : Payload) : PyResult :=
  pyCatch (voice_call_request_body b st sid data)

/-- Whether a broadcast is delivered to a given session: for a room-scoped
emit the session must be a member of the target room, a global emit
reaches every session; in both cases the skipped session is excluded. -/
def deliveredTo (rooms : Rooms) (e : Emit) (sid : String) : Bool :=
  (match e.room with
   | some r => decide (sid ∈ roomMembers rooms r)
   | Option.none => true)
  && decide (e.skip ≠ some sid)

end Relay

namespace Relay

/-- Deleting a key from a dictionary leaves no entry for that key. -/
theorem dictGet_dictDel (d : Dict) (k : String) : dictGet (dictDel d k) k = Option.none := by
  induction d with
  | nil => simp [dictDel, dictGet]
  | cons p rest ih =>
      obtain ⟨k', v⟩ := p
      by_cases h : k' = k
      · simpa [dictDel, h] using ih
      · simpa [dictDel, dictGet, h] using ih

/-- After entering a room, the session is among its members. -/
theorem mem_roomMembers_enterRoom (rooms : Rooms) (sid : String) (r : Value) :
    sid ∈ roomMembers (enterRoom rooms sid r) r := by
  induction rooms with
  | nil => simp [enterRoom, roomMembers]
  | cons p rest ih =>
      obtain ⟨r', ms⟩ := p
      by_cases h : r' = r
      · by_cases hm : sid ∈ ms
        · simp [enterRoom, roomMembers, h, hm]
        · simp [enterRoom, roomMembers, h, hm]
      · simpa [enterRoom, roomMembers, h] using ih

/-- After leaving a room, the session is not among its members. -/
theorem not_mem_roomMembers_leaveRoom (rooms : Rooms) (sid : String) (r : Value) :
    sid ∉ roomMembers (leaveRoom rooms sid r) r := by
  induction rooms with
  | nil => simp [leaveRoom, roomMembers]
  | cons p rest ih =>
      obtain ⟨r', ms⟩ := p
      by_cases h : r' = r
      · simp [leaveRoom, roomMembers, h, List.mem_filter]
      · simpa [leaveRoom, roomMembers, h] using ih

/-- The try/except wrapper never lets an exception escape. -/
theorem pyCatch_raised (p : PyResult) : (pyCatch p).raised = false := by
  cases p <;> rfl

end Relay

namespace Relay

/-- C1: after the `disconnect` handler runs for a session, the presence
registry `online_users` contains no entry for that session; when the
session was mapped to a user id at disconnect time, exactly one global
(room-unscoped) `user_offline` broadcast carrying that user id is emitted,
and when it had no entry, no broadcast is emitted. -/
theorem C1_disconnect_clears_presence (st : RelayState) (sid : String) :
    dictGet ((disconnect true st sid).state).online_users sid = Option.none ∧
    (∀ u, dictGet st.online_users sid = some u →
      (disconnect true st sid).emits =
        [⟨"user_offline", [("user_id", u)], Option.none, Option.none⟩]) ∧
    (dictGet st.online_users sid = Option.none → (disconnect true st sid).emits = []) := by
  cases h : dictGet st.online_users sid with
  | some u =>
      refine ⟨?_, ?_, ?_⟩
      · simp [disconnect, h, sioEmit, PyResult.state, dictGet_dictDel]
      · intro u' hu'
        injection hu' with huu
        subst huu
        simp [disconnect, h, sioEmit, PyResult.emits]
      · intro hn
        simp at hn
  | none =>
      refine ⟨?_, ?_, ?_⟩
      · simp [disconnect, h, PyResult.state]
      · intro u' hu'
        simp at hu'
      · intro _
        simp [disconnect, h, PyResult.emits]

/-- Witness for C1 at concrete inputs: session A online as u1 is cleared
and produces the single global user_offline broadcast; a session with no
entry produces none. -/
theorem C1_witness :
    dictGet ((disconnect true (RelayState.mk [("A", Value.str "u1")] []) "A").state).online_users
        "A" = Option.none ∧
    (disconnect true (RelayState.mk [("A", Value.str "u1")] []) "A").emits =
      [⟨"user_offline", [("user_id", Value.str "u1")], Option.none, Option.none⟩] ∧
    (disconnect true (RelayState.mk [] []) "B").emits = [] :=
  ⟨(C1_disconnect_clears_presence (RelayState.mk [("A", Value.str "u1")] []) "A").1,
    (C1_disconnect_clears_presence (RelayState.mk [("A", Value.str "u1")] []) "A").2.1
      (Value.str "u1") (by decide),
    (C1_disconnect_clears_presence (RelayState.mk [] []) "B").2.2 (by decide)⟩

/-- C2: for every relay event handler (user_online, join_conversation,
leave_conversation, send_message, typing, message_read,
voice_call_request), a payload in which a required field is missing or
falsy makes the handler return with zero broadcasts, an unchanged state,
and no error surfaced — under every emit oracle, since the emit call is
never reached. -/
theorem C2_validation_drops (b : Bool) (st : RelayState) (sid : String) (data : Payload) :
    ((Payload.get data "user_id").truthy = false →
        user_online b st sid data = PyResult.ok st []) ∧
    (((Payload.get data "conversation_id").truthy = false ∨
        (Payload.get data "user_id").truthy = false) →
        join_conversation b st sid data = PyResult.ok st []) ∧
    ((Payload.get data "conversation_id").truthy = false →
        leave_conversation b st sid data = PyResult.ok st []) ∧
    ((Payload.get data "conversation_id").truthy = false →
        send_message b st sid data = PyResult.ok st []) ∧
    (((Payload.get data "conversation_id").truthy = false ∨
        (Payload.get data "user_id").truthy = false) →
        typing b st sid data = PyResult.ok st []) ∧
    (((Payload.get data "conversation_id").truthy = false ∨
        (Payload.get data "message_id").truthy = false ∨
        (Payload.get data "user_id").truthy = false) →
        message_read b st sid data = PyResult.ok st []) ∧
    (((Payload.get data "conversation_id").truthy = false ∨
        (Payload.get data "caller_id").truthy = false) →
        voice_call_request b st sid data = PyResult.ok st []) := by
  refine ⟨?_, ?_, ?_, ?_, ?_, ?_, ?_⟩ <;> intro h <;>
    simp [user_online, user_online_body, join_conversation, join_conversation_body,
      leave_conversation, leave_conversation_body, send_message, send_message_body,
      typing, typing_body, message_read, message_read_body,
      voice_call_request, voice_call_request_body, pyCatch, h]

/-- Witness for C2: the empty payload (all required fields missing) makes
every handler return with no broadcast and no state change. -/
theorem C2_witness :
    user_online true (RelayState.mk [] []) "A" [] = PyResult.ok (RelayState.mk [] []) [] ∧
    join_conversation true (RelayState.mk [] []) "A" [] = PyResult.ok (RelayState.mk [] []) [] ∧
    leave_conversation true (RelayState.mk [] []) "A" [] = PyResult.ok (RelayState.mk [] []) [] ∧
    send_message true (RelayState.mk [] []) "A" [] = PyResult.ok (RelayState.mk [] []) [] ∧
    typing true (RelayState.mk [] []) "A" [] = PyResult.ok (RelayState.mk [] []) [] ∧
    message_read true (RelayState.mk [] []) "A" [] = PyResult.ok (RelayState.mk [] []) [] ∧
    voice_call_request true (RelayState.mk [] []) "A" [] = PyResult.ok (RelayState.mk [] []) [] := by
  obtain ⟨h1, h2, h3, h4, h5, h6, h7⟩ := C2_validation_drops true (RelayState.mk [] []) "A" []
  exact ⟨h1 (by decide), h2 (Or.inl (by decide)), h3 (by decide), h4 (by decide),
    h5 (Or.inl (by decide)), h6 (Or.inl (by decide)), h7 (Or.inl (by decide))⟩

end Relay

namespace Relay

/-- Setting a key in a dictionary makes lookup of that key return the new
value. -/
theorem dictGet_dictSet (d : Dict) (k : String) (v : Value) :
    dictGet (dictSet d k v) k = some v := by
  induction d with
  | nil => simp [dictSet, dictGet]
  | cons p rest ih =>
      obtain ⟨k', v'⟩ := p
      by_cases h : k' = k
      · simp [dictSet, dictGet, h]
      · simpa [dictSet, dictGet, h] using ih

/-- C3: a typing event with truthy conversation id and user id emits
exactly one user_typing broadcast to the conversation's room, excluding
the originating session, whose payload has exactly the conversation id,
the user id, and is_typing; is_typing is the inbound value when the key
is present and True when absent; the broadcast is never delivered to the
sender's own session, whatever the room membership. -/
theorem C3_typing_excludes_sender (st : RelayState) (sid : String) (data : Payload) :
    (Payload.get data "conversation_id").truthy = true →
    (Payload.get data "user_id").truthy = true →
    typing true st sid data =
      PyResult.ok st
        [⟨"user_typing",
          [("conversation_id", Payload.get data "conversation_id"),
           ("user_id", Payload.get data "user_id"),
           ("is_typing", Payload.getD data "is_typing" (Value.bool true))],
          some (Payload.get data "conversation_id"), some sid⟩] ∧
    (dictGet data "is_typing" = Option.none →
      Payload.getD data "is_typing" (Value.bool true) = Value.bool true) ∧
    (∀ v, dictGet data "is_typing" = some v →
      Payload.getD data "is_typing" (Value.bool true) = v) ∧
    (∀ rooms : Rooms, ∀ e ∈ (typing true st sid data).emits,
      deliveredTo rooms e sid = false) := by
  intro hc hu
  have h1 : typing true st sid data =
      PyResult.ok st
        [⟨"user_typing",
          [("conversation_id", Payload.get data "conversation_id"),
           ("user_id", Payload.get data "user_id"),
           ("is_typing", Payload.getD data "is_typing" (Value.bool true))],
          some (Payload.get data "conversation_id"), some sid⟩] := by
    simp [typing, typing_body, pyCatch, sioEmit, hc, hu]
  refine ⟨h1, ?_, ?_, ?_⟩
  · intro h
    simp [Payload.getD, h]
  · intro v h
    simp [Payload.getD, h]
  · intro rooms e he
    rw [h1] at he
    simp only [PyResult.emits, List.mem_singleton] at he
    subst he
    simp [deliveredTo]

/-- Witness for C3: with A and B in conv1, A's typing event produces the
single user_typing broadcast with is_typing defaulted to True, and it is
not delivered to A. -/
theorem C3_witness :
    typing true (RelayState.mk [] []) "A"
        [("conversation_id", Value.str "conv1"), ("user_id", Value.str "u1")] =
      PyResult.ok (RelayState.mk [] [])
        [⟨"user_typing",
          [("conversation_id", Value.str "conv1"), ("user_id", Value.str "u1"),
           ("is_typing", Value.bool true)],
          some (Value.str "conv1"), some "A"⟩] ∧
    deliveredTo [(Value.str "conv1", ["A", "B"])]
      ⟨"user_typing",
        [("conversation_id", Value.str "conv1"), ("user_id", Value.str "u1"),
         ("is_typing", Value.bool true)],
        some (Value.str "conv1"), some "A"⟩ "A" = false := by
  have h := C3_typing_excludes_sender (RelayState.mk [] []) "A"
    [("conversation_id", Value.str "conv1"), ("user_id", Value.str "u1")]
    (by decide) (by decide)
  exact ⟨h.1, h.2.2.2 [(Value.str "conv1", ["A", "B"])] _ (by rw [h.1]; decide)⟩

/-- Intermediate state of the §8 scenario: session A has joined conv1 as
u1, starting from the empty relay state. -/
def c4_join1 : RelayState :=
  (join_conversation true (RelayState.mk [] []) "A"
    [("conversation_id", Value.str "conv1"), ("user_id", Value.str "u1")]).state

/-- State of the §8 scenario after session B also joined conv1 as u2. -/
def c4_join2 : RelayState :=
  (join_conversation true c4_join1 "B"
    [("conversation_id", Value.str "conv1"), ("user_id", Value.str "u2")]).state

/-- Result of A's send_message in the §8 scenario. -/
def c4_send : PyResult :=
  send_message true c4_join2 "A"
    [("conversation_id", Value.str "conv1"), ("text", Value.str "hi")]

/-- C4: a send_message event with truthy conversation id re-broadcasts the
original inbound payload unmodified, as new_message, to the conversation's
room with no excluded session; in the §8 scenario where A and B both
joined conv1 and A sends, the single new_message broadcast is delivered to
both A and B. -/
theorem C4_send_message_full_room (st : RelayState) (sid : String) (data : Payload) :
    ((Payload.get data "conversation_id").truthy = true →
      send_message true st sid data =
        PyResult.ok st
          [⟨"new_message", data, some (Payload.get data "conversation_id"), Option.none⟩]) ∧
    c4_send.emits =
      [⟨"new_message", [("conversation_id", Value.str "conv1"), ("text", Value.str "hi")],
        some (Value.str "conv1"), Option.none⟩] ∧
    (∀ e ∈ c4_send.emits,
      deliveredTo c4_join2.rooms e "A" = true ∧ deliveredTo c4_join2.rooms e "B" = true) := by
  refine ⟨?_, by decide, by decide⟩
  intro h
  simp [send_message, send_message_body, pyCatch, sioEmit, h]

/-- Witness for C4: a concrete send_message with conversation id conv1
re-broadcasts its payload unmodified as new_message to room conv1. -/
theorem C4_witness :
    send_message true (RelayState.mk [] []) "A"
        [("conversation_id", Value.str "conv1"), ("text", Value.str "hi")] =
      PyResult.ok (RelayState.mk [] [])
        [⟨"new_message", [("conversation_id", Value.str "conv1"), ("text", Value.str "hi")],
          some (Value.str "conv1"), Option.none⟩] := by
  exact (C4_send_message_full_room (RelayState.mk [] []) "A"
    [("conversation_id", Value.str "conv1"), ("text", Value.str "hi")]).1 (by decide)

end Relay

namespace Relay

/-- C5: a user_online event with truthy user id inserts or overwrites the
presence entry for the session to that user id and emits one global
(room-unscoped) user_online broadcast carrying it; with a falsy or missing
user id the event is dropped silently and the state is unchanged. -/
theorem C5_user_online_presence (st : RelayState) (sid : String) (data : Payload) :
    ((Payload.get data "user_id").truthy = true →
      user_online true st sid data =
        PyResult.ok
          (RelayState.mk (dictSet st.online_users sid (Payload.get data "user_id")) st.rooms)
          [⟨"user_online", [("user_id", Payload.get data "user_id")],
            Option.none, Option.none⟩]) ∧
    ((Payload.get data "user_id").truthy = true →
      dictGet ((user_online true st sid data).state).online_users sid =
        some (Payload.get data "user_id")) ∧
    ((Payload.get data "user_id").truthy = false →
      user_online true st sid data = PyResult.ok st []) := by
  have h1 : (Payload.get data "user_id").truthy = true →
      user_online true st sid data =
        PyResult.ok
          (RelayState.mk (dictSet st.online_users sid (Payload.get data "user_id")) st.rooms)
          [⟨"user_online", [("user_id", Payload.get data "user_id")],
            Option.none, Option.none⟩] := by
    intro h
    simp [user_online, user_online_body, pyCatch, sioEmit, h]
  refine ⟨h1, ?_, ?_⟩
  · intro h
    rw [h1 h]
    simp [PyResult.state, dictGet_dictSet]
  · intro h
    simp [user_online, user_online_body, pyCatch, h]

/-- Witness for C5: a concrete user_online as u1 sets the presence entry
and emits the global broadcast; the empty payload is dropped. -/
theorem C5_witness :
    user_online true (RelayState.mk [] []) "A" [("user_id", Value.str "u1")] =
      PyResult.ok (RelayState.mk [("A", Value.str "u1")] [])
        [⟨"user_online", [("user_id", Value.str "u1")], Option.none, Option.none⟩] ∧
    dictGet ((user_online true (RelayState.mk [] []) "A"
        [("user_id", Value.str "u1")]).state).online_users "A" = some (Value.str "u1") ∧
    user_online true (RelayState.mk [] []) "A" [] = PyResult.ok (RelayState.mk [] []) [] := by
  have h := C5_user_online_presence (RelayState.mk [] []) "A" [("user_id", Value.str "u1")]
  have h' := C5_user_online_presence (RelayState.mk [] []) "A" []
  exact ⟨h.1 (by decide), h.2.1 (by decide), h'.2.2 (by decide)⟩

/-- C6: a join_conversation event with truthy conversation id and user id
adds the session to the Transport Layer room named by the conversation id
and emits one joined_conversation broadcast with the conversation id and
user id to the full room, with no excluded session, so it is delivered to
the joiner; with either field falsy or missing the event is dropped with
no room change and no broadcast. -/
theorem C6_join_conversation_room (st : RelayState) (sid : String) (data : Payload) :
    ((Payload.get data "conversation_id").truthy = true →
      (Payload.get data "user_id").truthy = true →
      join_conversation true st sid data =
        PyResult.ok
          (RelayState.mk st.online_users
            (enterRoom st.rooms sid (Payload.get data "conversation_id")))
          [⟨"joined_conversation",
            [("conversation_id", Payload.get data "conversation_id"),
             ("user_id", Payload.get data "user_id")],
            some (Payload.get data "conversation_id"), Option.none⟩] ∧
      sid ∈ roomMembers ((join_conversation true st sid data).state).rooms
        (Payload.get data "conversation_id") ∧
      (∀ e ∈ (join_conversation true st sid data).emits,
        deliveredTo ((join_conversation true st sid data).state).rooms e sid = true)) ∧
    (((Payload.get data "conversation_id").truthy = false ∨
        (Payload.get data "user_id").truthy = false) →
      join_conversation true st sid data = PyResult.ok st []) := by
  constructor
  · intro hc hu
    have h1 : join_conversation true st sid data =
        PyResult.ok
          (RelayState.mk st.online_users
            (enterRoom st.rooms sid (Payload.get data "conversation_id")))
          [⟨"joined_conversation",
            [("conversation_id", Payload.get data "conversation_id"),
             ("user_id", Payload.get data "user_id")],
            some (Payload.get data "conversation_id"), Option.none⟩] := by
      simp [join_conversation, join_conversation_body, pyCatch, sioEmit, hc, hu]
    refine ⟨h1, ?_, ?_⟩
    · rw [h1]
      simpa [PyResult.state] using
        mem_roomMembers_enterRoom st.rooms sid (Payload.get data "conversation_id")
    · intro e he
      rw [h1] at he
      simp only [PyResult.emits, List.mem_singleton] at he
      subst he
      rw [h1]
      simp [PyResult.state, deliveredTo, mem_roomMembers_enterRoom]
  · intro h
    simp [join_conversation, join_conversation_body, pyCatch, h]

/-- Witness for C6: joining conv1 as u1 from the empty state puts A in the
room, broadcasts joined_conversation to the room, delivers it to A, and
the empty payload is dropped. -/
theorem C6_witness :
    join_conversation true (RelayState.mk [] []) "A"
        [("conversation_id", Value.str "conv1"), ("user_id", Value.str "u1")] =
      PyResult.ok (RelayState.mk [] [(Value.str "conv1", ["A"])])
        [⟨"joined_conversation",
          [("conversation_id", Value.str "conv1"), ("user_id", Value.str "u1")],
          some (Value.str "conv1"), Option.none⟩] ∧
    join_conversation true (RelayState.mk [] []) "A" [] =
      PyResult.ok (RelayState.mk [] []) [] := by
  have h := C6_join_conversation_room (RelayState.mk [] []) "A"
    [("conversation_id", Value.str "conv1"), ("user_id", Value.str "u1")]
  have h' := C6_join_conversation_room (RelayState.mk [] []) "A" []
  exact ⟨(h.1 (by decide) (by decide)).1, h'.2 (Or.inl (by decide))⟩

/-- C7: a leave_conversation event with truthy conversation id removes the
session from the room named by the conversation id — a truthy user id is
not required for the removal to proceed — emits no broadcast of any kind,
and leaves the presence registry unchanged. -/
theorem C7_leave_conversation_silent (st : RelayState) (sid : String) (data : Payload) :
    (Payload.get data "conversation_id").truthy = true →
    leave_conversation true st sid data =
      PyResult.ok
        (RelayState.mk st.online_users
          (leaveRoom st.rooms sid (Payload.get data "conversation_id"))) [] ∧
    sid ∉ roomMembers ((leave_conversation true st sid data).state).rooms
      (Payload.get data "conversation_id") ∧
    (leave_conversation true st sid data).emits = [] ∧
    ((leave_conversation true st sid data).state).online_users = st.online_users := by
  intro hc
  have h1 : leave_conversation true st sid data =
      PyResult.ok
        (RelayState.mk st.online_users
          (leaveRoom st.rooms sid (Payload.get data "conversation_id"))) [] := by
    simp [leave_conversation, leave_conversation_body, pyCatch, hc]
  refine ⟨h1, ?_, ?_, ?_⟩
  · rw [h1]
    simpa [PyResult.state] using
      not_mem_roomMembers_leaveRoom st.rooms sid (Payload.get data "conversation_id")
  · rw [h1]
    rfl
  · rw [h1]
    rfl

/-- Witness for C7: with A and B in conv1, A leaving conv1 with a payload
that has no user id at all still removes A from the room, emits nothing,
and leaves the presence registry untouched. -/
theorem C7_witness :
    leave_conversation true
        (RelayState.mk [("A", Value.str "u1")] [(Value.str "conv1", ["A", "B"])]) "A"
        [("conversation_id", Value.str "conv1")] =
      PyResult.ok
        (RelayState.mk [("A", Value.str "u1")] [(Value.str "conv1", ["B"])]) [] := by
  have h := C7_leave_conversation_silent
    (RelayState.mk [("A", Value.str "u1")] [(Value.str "conv1", ["A", "B"])]) "A"
    [("conversation_id", Value.str "conv1")] (by decide)
  rw [h.1]
  decide

end Relay

namespace Relay

/-- Counterexample to C8: with valid payloads, send_message re-broadcasts
under the event name new_message, typing under user_typing, and
voice_call_request under incoming_call — none of which is the inbound
event name; only message_read keeps its name. -/
theorem C8_counterexample :
    (send_message true (RelayState.mk [] []) "A"
        [("conversation_id", Value.str "conv1")]).emits.map Emit.event = ["new_message"] ∧
    (typing true (RelayState.mk [] []) "A"
        [("conversation_id", Value.str "conv1"),
         ("user_id", Value.str "u1")]).emits.map Emit.event = ["user_typing"] ∧
    (voice_call_request true (RelayState.mk [] []) "A"
        [("conversation_id", Value.str "conv1"),
         ("caller_id", Value.str "u1")]).emits.map Emit.event = ["incoming_call"] ∧
    "new_message" ≠ "send_message" ∧
    "user_typing" ≠ "typing" ∧
    "incoming_call" ≠ "voice_call_request" := by
  decide

/-- C8 as amended: the outbound broadcast event names are new_message for
send_message, user_typing for typing, message_read for message_read (the
only handler that keeps the inbound name), and incoming_call for
voice_call_request. -/
theorem C8_outbound_event_names (st : RelayState) (sid : String) (data : Payload) :
    ((Payload.get data "conversation_id").truthy = true →
      (send_message true st sid data).emits.map Emit.event = ["new_message"]) ∧
    ((Payload.get data "conversation_id").truthy = true →
      (Payload.get data "user_id").truthy = true →
      (typing true st sid data).emits.map Emit.event = ["user_typing"]) ∧
    ((Payload.get data "conversation_id").truthy = true →
      (Payload.get data "message_id").truthy = true →
      (Payload.get data "user_id").truthy = true →
      (message_read true st sid data).emits.map Emit.event = ["message_read"]) ∧
    ((Payload.get data "conversation_id").truthy = true →
      (Payload.get data "caller_id").truthy = true →
      (voice_call_request true st sid data).emits.map Emit.event = ["incoming_call"]) := by
  refine ⟨?_, ?_, ?_, ?_⟩
  · intro h
    simp [send_message, send_message_body, pyCatch, sioEmit, PyResult.emits, h]
  · intro hc hu
    simp [typing, typing_body, pyCatch, sioEmit, PyResult.emits, hc, hu]
  · intro hc hm hu
    simp [message_read, message_read_body, pyCatch, sioEmit, PyResult.emits, hc, hm, hu]
  · intro hc hu
    simp [voice_call_request, voice_call_request_body, pyCatch, sioEmit, PyResult.emits, hc, hu]

/-- Witness for the amended C8 at concrete valid payloads. -/
theorem C8_witness :
    (send_message true (RelayState.mk [] []) "A"
        [("conversation_id", Value.str "c")]).emits.map Emit.event = ["new_message"] ∧
    (typing true (RelayState.mk [] []) "A"
        [("conversation_id", Value.str "c"),
         ("user_id", Value.str "u")]).emits.map Emit.event = ["user_typing"] ∧
    (message_read true (RelayState.mk [] []) "A"
        [("conversation_id", Value.str "c"), ("message_id", Value.str "m"),
         ("user_id", Value.str "u")]).emits.map Emit.event = ["message_read"] ∧
    (voice_call_request true (RelayState.mk [] []) "A"
        [("conversation_id", Value.str "c"),
         ("caller_id", Value.str "u")]).emits.map Emit.event = ["incoming_call"] := by
  refine ⟨?_, ?_, ?_, ?_⟩
  · exact (C8_outbound_event_names (RelayState.mk [] []) "A"
      [("conversation_id", Value.str "c")]).1 (by decide)
  · exact (C8_outbound_event_names (RelayState.mk [] []) "A"
      [("conversation_id", Value.str "c"), ("user_id", Value.str "u")]).2.1
      (by decide) (by decide)
  · exact (C8_outbound_event_names (RelayState.mk [] []) "A"
      [("conversation_id", Value.str "c"), ("message_id", Value.str "m"),
       ("user_id", Value.str "u")]).2.2.1 (by decide) (by decide) (by decide)
  · exact (C8_outbound_event_names (RelayState.mk [] []) "A"
      [("conversation_id", Value.str "c"), ("caller_id", Value.str "u")]).2.2.2
      (by decide) (by decide)

/-- Counterexample to C9: the connect and disconnect lifecycle handlers
have no try/except boundary, so when their emit call raises, the exception
escapes the handler — here at a concrete connecting session, and at a
concrete disconnect of a session that was online as u1. -/
theorem C9_counterexample :
    (connect false (RelayState.mk [] []) "A").raised = true ∧
    (disconnect false (RelayState.mk [("A", Value.str "u1")] []) "A").raised = true := by
  decide

/-- C9 as amended: each of the seven payload event handlers catches
internal exceptions at its boundary — under every emit oracle no exception
escapes — while connect and disconnect have no such boundary (see the
counterexample). -/
theorem C9_payload_handlers_catch (b : Bool) (st : RelayState) (sid : String) (data : Payload) :
    (user_online b st sid data).raised = false ∧
    (join_conversation b st sid data).raised = false ∧
    (leave_conversation b st sid data).raised = false ∧
    (send_message b st sid data).raised = false ∧
    (typing b st sid data).raised = false ∧
    (message_read b st sid data).raised = false ∧
    (voice_call_request b st sid data).raised = false :=
  ⟨pyCatch_raised _, pyCatch_raised _, pyCatch_raised _, pyCatch_raised _,
    pyCatch_raised _, pyCatch_raised _, pyCatch_raised _⟩

/-- C10: the message_read handler drops any payload in which the
conversation id, message id, or user id is Python-falsy — including
present-but-falsy values such as a message id of 0 or False, not only
missing or empty-string values — and with all three truthy it emits
exactly one message_read broadcast carrying the message id and user id to
the full room named by the conversation id, with no excluded session. -/
theorem C10_message_read_falsy (st : RelayState) (sid : String) (data : Payload) :
    (((Payload.get data "conversation_id").truthy = false ∨
        (Payload.get data "message_id").truthy = false ∨
        (Payload.get data "user_id").truthy = false) →
      message_read true st sid data = PyResult.ok st []) ∧
    ((Payload.get data "conversation_id").truthy = true →
      (Payload.get data "message_id").truthy = true →
      (Payload.get data "user_id").truthy = true →
      message_read true st sid data =
        PyResult.ok st
          [⟨"message_read",
            [("message_id", Payload.get data "message_id"),
             ("user_id", Payload.get data "user_id")],
            some (Payload.get data "conversation_id"), Option.none⟩]) := by
  constructor
  · intro h
    simp [message_read, message_read_body, pyCatch, h]
  · intro hc hm hu
    simp [message_read, message_read_body, pyCatch, sioEmit, hc, hm, hu]

/-- Witness for C10: a payload with message id 0 (present but falsy) is
dropped; one with message id False is dropped too; and a fully truthy
payload produces the single full-room message_read broadcast. -/
theorem C10_witness :
    message_read true (RelayState.mk [] []) "A"
        [("conversation_id", Value.str "c"), ("message_id", Value.int 0),
         ("user_id", Value.str "u")] = PyResult.ok (RelayState.mk [] []) [] ∧
    message_read true (RelayState.mk [] []) "A"
        [("conversation_id", Value.str "c"), ("message_id", Value.bool false),
         ("user_id", Value.str "u")] = PyResult.ok (RelayState.mk [] []) [] ∧
    message_read true (RelayState.mk [] []) "A"
        [("conversation_id", Value.str "c"), ("message_id", Value.int 7),
         ("user_id", Value.str "u")] =
      PyResult.ok (RelayState.mk [] [])
        [⟨"message_read", [("message_id", Value.int 7), ("user_id", Value.str "u")],
          some (Value.str "c"), Option.none⟩] := by
  refine ⟨?_, ?_, ?_⟩
  · exact (C10_message_read_falsy (RelayState.mk [] []) "A"
      [("conversation_id", Value.str "c"), ("message_id", Value.int 0),
       ("user_id", Value.str "u")]).1 (Or.inr (Or.inl (by decide)))
  · exact (C10_message_read_falsy (RelayState.mk [] []) "A"
      [("conversation_id", Value.str "c"), ("message_id", Value.bool false),
       ("user_id", Value.str "u")]).1 (Or.inr (Or.inl (by decide)))
  · exact (C10_message_read_falsy (RelayState.mk [] []) "A"
      [("conversation_id", Value.str "c"), ("message_id", Value.int 7),
       ("user_id", Value.str "u")]).2 (by decide) (by decide) (by decide)

end Relay
